import Mathlib

/-!
Shallow embedding of `py/yubikey.py` (the Authenticator Session &
Credential Gateway) and proofs about the claims C1-C10.

JSON-like values model the Python dicts that cross the wire boundary.
Device/library behaviour (ykman controllers, the settings file) is external
to the repository; it enters the embedding as explicit parameters (the
device's response to a call) and as an explicit call trace (`DevCall`),
so that theorems can talk about which protected device calls an operation
performs.
-/

/-- A JSON-like value, the shape of the Python dicts/lists that the gateway
returns through `as_json`. -/
inductive JVal where
  | jnull
  | jbool (b : Bool)
  | jint (n : Int)
  | jstr (s : String)
  | jlist (xs : List JVal)
  | jobj (fields : List (String × JVal))

/-- A Python dict with string keys, in insertion order. -/
abbrev Dict := List (String × JVal)

/-- Python dict assignment `d[k] = v`: overwrite in place if the key exists,
append otherwise. -/
def dictSet : Dict → String → JVal → Dict
  | [], k, v => [(k, v)]
  | (k1, v1) :: rest, k, v =>
      if k1 = k then (k, v) :: rest else (k1, v1) :: dictSet rest k v

/-- Python dict lookup `d[k]` / `d.get(k)`. -/
def dictGet : Dict → String → Option JVal
  | [], _ => none
  | (k1, v1) :: rest, k => if k1 = k then some v1 else dictGet rest k

/-- `success(result={})` from `py/yubikey.py`: sets `result['success'] = True`. -/
def success (result : Dict := []) : Dict :=
  dictSet result "success" (.jbool true)

/-- `failure(err_id, result={})` from `py/yubikey.py`: sets
`result['success'] = False` and `result['error_id'] = err_id`. -/
def failure (err_id : String) (result : Dict := []) : Dict :=
  dictSet (dictSet result "success" (.jbool false)) "error_id" (.jstr err_id)

/-- `unknown_failure(exception)` from `py/yubikey.py`: `failure(str(exception))`.
The argument is `str(exception)`, the exception's message text. -/
def unknown_failure (excText : String) : Dict :=
  failure excText

/-- The APDU status words used by the gateway.  The numeric values come from
the external `ykman.oath.SW` enum; only their distinctness matters here. -/
def SW.NO_SPACE : Nat := 0x6a84
def SW.COMMAND_ABORTED : Nat := 0x6f00
def SW.INCORRECT_PARAMETERS : Nat := 0x6a80
def SW.SECURITY_CONDITION_NOT_SATISFIED : Nat := 0x6982

/-- The Python exceptions that can escape an operation body, as `catch_error`
distinguishes them.  `msg` models `str(e)`. -/
inductive PyExc where
  | ykpers (errno : Nat) (msg : String)
  | failedOpeningDevice
  | apdu (sw : Nat) (msg : String)
  | other (msg : String)
  deriving DecidableEq, Repr

/-- `catch_error(f)` from `py/yubikey.py`, applied to the outcome of the wrapped
body.  A body outcome is either a returned value (a dict, or Python `None` as
`Option.none`) or a raised exception.  `YkpersError` errno 3/4 map to
`write error`/`timeout`, other `YkpersError`s to `unknown_failure(e)`;
`FailedOpeningDeviceException` maps to `open_device_failed`; `APDUError` with
`SECURITY_CONDITION_NOT_SATISFIED` maps to `access_denied` and any other
`APDUError` is re-raised; any other exception maps to `incorrect_padding` when
`str(e) == 'Incorrect padding'` and otherwise to `unknown_failure(e)`. -/
def catch_error (r : Except PyExc (Option Dict)) : Except PyExc (Option Dict) :=
  match r with
  | .ok v => .ok v
  | .error e =>
    match e with
    | .ykpers n msg =>
        if n = 3 then .ok (some (failure "write error"))
        else if n = 4 then .ok (some (failure "timeout"))
        else .ok (some (unknown_failure msg))
    | .failedOpeningDevice => .ok (some (failure "open_device_failed"))
    | .apdu sw msg =>
        if sw = SW.SECURITY_CONDITION_NOT_SATISFIED then
          .ok (some (failure "access_denied"))
        else .error (.apdu sw msg)
    | .other msg =>
        if msg = "Incorrect padding" then .ok (some (failure "incorrect_padding"))
        else .ok (some (unknown_failure msg))

/-- Extract the `error_id` string from a wrapped operation outcome, when the
outcome is a returned dict carrying one. -/
def errorIdOf (r : Except PyExc (Option Dict)) : Option String :=
  match r with
  | .ok (some d) =>
      match dictGet d "error_id" with
      | some (.jstr s) => some s
      | _ => none
  | _ => none

/-- OATH credential type (`ykman.oath.OATH_TYPE`). -/
inductive OathType where
  | TOTP
  | HOTP
  deriving DecidableEq, Repr

/-- `.name` of an `OATH_TYPE` member. -/
def OathType.name : OathType → String
  | .TOTP => "TOTP"
  | .HOTP => "HOTP"

/-- An OATH credential as the gateway sees it.  Mirrors the fields of the
external `ykman.oath.Credential` that `cred_to_dict` reads: the identity key
(utf-8 decoded), the issuer and name parsed from the key, the OATH type, the
period and the touch flag. -/
structure Credential where
  key : String
  issuer : Option String
  name : String
  oath_type : OathType
  period : Int
  touch : Bool
  deriving DecidableEq, Repr

/-- `Credential.is_hidden` of ykman: the credential's issuer is the reserved
string `_hidden`. -/
def Credential.is_hidden (c : Credential) : Bool :=
  match c.issuer with
  | some s => s == "_hidden"
  | none => false

/-- A computed code with its validity window (`ykman.oath.Code`). -/
structure Code where
  value : String
  valid_from : Int
  valid_to : Int
  deriving DecidableEq, Repr

def optStr : Option String → JVal
  | some s => .jstr s
  | none => .jnull

/-- `cred_to_dict(cred)` from `py/yubikey.py`. -/
def cred_to_dict (cred : Credential) : Dict :=
  [("key", .jstr cred.key),
   ("issuer", optStr cred.issuer),
   ("name", .jstr cred.name),
   ("oath_type", .jstr cred.oath_type.name),
   ("period", .jint cred.period),
   ("touch", .jbool cred.touch)]

/-- `cred_from_dict(data)` from `py/yubikey.py` builds
`Credential(data['key'].encode('utf-8'), OATH_TYPE[data['oath_type']],
data['touch'])`; the device calls made with the result (`calculate`,
`delete`) address the credential by its identity key, which is the only
part consulted downstream, so the embedding extracts that key.  A missing
`key` field (Python `KeyError`) is `none`. -/
def cred_from_dict (data : Dict) : Option String :=
  match dictGet data "key" with
  | some (.jstr s) => some s
  | _ => none

/-- `code_to_dict(code)` from `py/yubikey.py`: `None` when there is no code,
else the wire dict; `valid_to` is capped with `min(code.valid_to, 9999999999)`
("No Inf in JSON"). -/
def code_to_dict : Option Code → JVal
  | some code =>
      .jobj [("value", .jstr code.value),
             ("valid_from", .jint code.valid_from),
             ("valid_to", .jint (min code.valid_to 9999999999))]
  | none => .jnull

/-- `pair_to_dict(cred, code)` from `py/yubikey.py`. -/
def pair_to_dict (cred : Credential) (code : Option Code) : Dict :=
  [("credential", .jobj (cred_to_dict cred)),
   ("code", code_to_dict code)]

/-- One hex digit, lowercase, as produced by `binascii.b2a_hex`. -/
def hexChar (n : Nat) : Char :=
  if n < 10 then Char.ofNat (48 + n) else Char.ofNat (87 + n)

/-- `b2a_hex(bs).decode()`: two lowercase hex chars per byte. -/
def b2a_hex (bs : List Nat) : String :=
  String.mk ((bs.map (fun b => [hexChar ((b / 16) % 16), hexChar (b % 16)])).flatten)

def hexVal (c : Char) : Nat :=
  if c.isDigit then c.toNat - 48 else c.toNat - 87

def a2b_hexAux : List Char → List Nat
  | c1 :: c2 :: rest => (16 * hexVal c1 + hexVal c2) :: a2b_hexAux rest
  | _ => []

/-- `a2b_hex(s)`: decode a hex string back to bytes. -/
def a2b_hex (s : String) : List Nat :=
  a2b_hexAux s.toList

/-- A device descriptor, together with the metadata that opening the device
would reveal (`dev.device_name`, `dev.version`, `dev.serial`). -/
structure Descriptor where
  fingerprint : String
  device_name : String
  version : List Nat
  serial : Option Nat
  deriving DecidableEq, Repr

def optInt : Option Nat → JVal
  | some n => .jint n
  | none => .jnull

/-- The wire dict built for one device in `refresh_devices`. -/
def device_dict (d : Descriptor) : Dict :=
  [("name", .jstr d.device_name),
   ("version", .jlist (d.version.map (fun n => .jint n))),
   ("serial", optInt d.serial),
   ("fingerprint", .jstr d.fingerprint)]

/-- The mutable state of the `Controller` object: `_descs`, `_desc_fps`,
`_current_desc`, `_devices`, `_current_key`, and the persisted
`settings['keys']` mapping (store id -> hex-encoded key). -/
structure ControllerState where
  descs : List Descriptor
  desc_fps : List String
  current_desc : Option Descriptor
  devices : List Dict
  current_key : Option (List Nat)
  keys : List (String × String)

/-- An open OATH session as the gateway observes it: the `locked` flag, the
store identity `id`, and the (credential, code) pairs the device would report
from `calculate_all` (external device state, spec section 6). -/
structure OathSession where
  locked : Bool
  id : String
  store : List (Credential × Option Code)

/-- A protected device call performed during an operation, for the call
trace. -/
inductive DevCall where
  | validate (key : List Nat)
  | calculate_all (ts : Int)
  | calculate (key : String) (ts : Int)
  | put (name : String)
  | delete (key : String)
  | set_password (pw : String)
  deriving DecidableEq, Repr

/-- Persisted-keys lookup (`controller.id in keys` / `keys[controller.id]`). -/
def assocGet : List (String × String) → String → Option String
  | [], _ => none
  | (k1, v1) :: rest, k => if k1 = k then some v1 else assocGet rest k

/-- `keys[id] = v`: overwrite in place or append. -/
def assocSet : List (String × String) → String → String → List (String × String)
  | [], k, v => [(k, v)]
  | (k1, v1) :: rest, k, v =>
      if k1 = k then (k, v) :: rest else (k1, v1) :: assocSet rest k v

/-- `del keys[id]`. -/
def assocDel : List (String × String) → String → List (String × String)
  | [], _ => []
  | (k1, v1) :: rest, k =>
      if k1 = k then assocDel rest k else (k1, v1) :: assocDel rest k

/-- What `Controller._unlock(controller)` produces: the value the Python
function returns (`None`, or the `failed_to_unlock_key` failure dict) and the
device calls it performs.  Mirrors lines 293-301 of `py/yubikey.py`: if the
session is locked, try the in-memory `_current_key`, then the persisted
`settings['keys'][controller.id]`, else return `failure('failed_to_unlock_key')`. -/
structure UnlockOut where
  envelope : Option Dict
  calls : List DevCall

def unlock (st : ControllerState) (sess : OathSession) : UnlockOut :=
  if sess.locked then
    match st.current_key with
    | some k => { envelope := none, calls := [.validate k] }
    | none =>
        match assocGet st.keys sess.id with
        | some hx => { envelope := none, calls := [.validate (a2b_hex hx)] }
        | none => { envelope := some (failure "failed_to_unlock_key"), calls := [] }
  else { envelope := none, calls := [] }

structure CalcAllOut where
  ret : Dict
  calls : List DevCall

/-- `Controller.ccid_calculate_all(timestamp)` (lines 192-203).  Note that
line 194 calls `self._unlock(oath_controller)` as a bare statement: the
envelope `_unlock` returns is discarded, and the protected
`calculate_all` device call is performed unconditionally.  The device's
response to `calculate_all` is the session's `store` (external). -/
def ccid_calculate_all (st : ControllerState) (sess : OathSession) (timestamp : Int) :
    CalcAllOut :=
  let u := unlock st sess
  { ret := success [("entries",
      .jlist (((sess.store.filter (fun p => !p.1.is_hidden)).map
        (fun p => JVal.jobj (pair_to_dict p.1 p.2)))))],
    calls := u.calls ++ [.calculate_all timestamp] }

structure CalcOut where
  ret : Except PyExc Dict
  calls : List DevCall

/-- `Controller.ccid_calculate(credential, timestamp)` (lines 205-213).  The
unlock envelope is again discarded (line 207).  `devCode` is the external
device's response to the `calculate` call for this credential.  The input
credential dict is echoed back verbatim. -/
def ccid_calculate (st : ControllerState) (sess : OathSession) (credential : Dict)
    (devCode : Option Code) (timestamp : Int) : CalcOut :=
  let u := unlock st sess
  match cred_from_dict credential with
  | none => { ret := .error (.other "KeyError"), calls := u.calls }
  | some key =>
      { ret := .ok (success [("credential", .jobj credential),
                            ("code", code_to_dict devCode)]),
        calls := u.calls ++ [.calculate key timestamp] }

/-- The provisioning-form credential passed to `put` (external
`ykman.oath.CredentialData`); carried opaquely by the embedding. -/
structure CredentialData where
  secret : String
  issuer : Option String
  name : String
  oath_type : OathType
  algorithm : String
  digits : Int
  period : Int
  counter : Int
  touch : Bool
  deriving DecidableEq, Repr

/-- Outcome of the device's `put` call: success, or an `APDUError` with the
given status word. -/
inductive PutOutcome where
  | ok
  | apduErr (sw : Nat)
  deriving DecidableEq, Repr

structure AddOut where
  ret : Except PyExc (Option Dict)
  calls : List DevCall

/-- `Controller.ccid_add_credential(...)` (lines 215-234), after the secret
has been base32-decoded.  The `try` block catches `APDUError` from `put`:
`SW.NO_SPACE` and `SW.COMMAND_ABORTED` are both mapped to
`failure('no_space')` (the NEO no-space quirk); any other status word is
re-raised.  The unlock envelope is discarded as in the other operations,
and the `put` is attempted in every case (`putRes` is its outcome). -/
def ccid_add_credential (st : ControllerState) (sess : OathSession)
    (cd : CredentialData) (putRes : PutOutcome) : AddOut :=
  let u := unlock st sess
  match putRes with
  | .ok => { ret := .ok (some (success [])), calls := u.calls ++ [.put cd.name] }
  | .apduErr sw =>
      if sw = SW.NO_SPACE ∨ sw = SW.COMMAND_ABORTED then
        { ret := .ok (some (failure "no_space")), calls := u.calls ++ [.put cd.name] }
      else { ret := .error (.apdu sw ""), calls := u.calls ++ [.put cd.name] }

/-- Outcome of the device's `validate(key)` call inside `ccid_validate`. -/
inductive ValidateOutcome where
  | ok
  | apduErr (sw : Nat)
  deriving DecidableEq, Repr

/-- `Controller.ccid_validate(password, remember=False)` (lines 236-250).
`derivedKey` is the external `derive_key(password)` result.  On successful
validation the key becomes `_current_key` and, with `remember`, is persisted
hex-encoded under the store id.  On `APDUError` with
`SW.INCORRECT_PARAMETERS` the operation returns `failure('validate_failed')`;
on `APDUError` with ANY OTHER status word the except clause swallows the
exception and the function falls off the end, returning Python `None`
(`Option.none` here). -/
def ccid_validate (st : ControllerState) (sess : OathSession)
    (derivedKey : List Nat) (vo : ValidateOutcome) (remember : Bool) :
    Except PyExc (Option Dict) × ControllerState :=
  match vo with
  | .ok =>
      let st1 := { st with current_key := some derivedKey }
      let st2 :=
        if remember then
          { st1 with keys := assocSet st1.keys sess.id (b2a_hex derivedKey) }
        else st1
      (.ok (some (success [])), st2)
  | .apduErr sw =>
      if sw = SW.INCORRECT_PARAMETERS then (.ok (some (failure "validate_failed")), st)
      else (.ok none, st)

structure DeleteOut where
  ret : Except PyExc Dict
  calls : List DevCall
  store : List (Credential × Option Code)

/-- `Controller.ccid_delete_credential(credential)` (lines 303-307).  The
unlock envelope is discarded (line 305); the device's `delete` removes the
credential addressed by its identity key from the store (external device
semantics, spec section 6: "removes credential by its identity key"). -/
def ccid_delete_credential (st : ControllerState) (sess : OathSession)
    (credential : Dict) : DeleteOut :=
  let u := unlock st sess
  match cred_from_dict credential with
  | none => { ret := .error (.other "KeyError"), calls := u.calls, store := sess.store }
  | some key =>
      { ret := .ok (success []),
        calls := u.calls ++ [.delete key],
        store := sess.store.filter (fun p => !(p.1.key == key)) }

structure SetPasswordOut where
  ret : Dict
  calls : List DevCall
  state : ControllerState

/-- `Controller.ccid_set_password(new_password, remember=False)`
(lines 314-324).  `newKey` is the key the external
`oath_controller.set_password(new_password)` returns; it becomes
`_current_key`.  With `remember` the hex-encoded key is stored under the
store id; otherwise, if an entry exists for the store id, it is deleted.
The unlock envelope is discarded (line 316). -/
def ccid_set_password (st : ControllerState) (sess : OathSession)
    (new_password : String) (newKey : List Nat) (remember : Bool) : SetPasswordOut :=
  let u := unlock st sess
  let keys2 :=
    if remember then assocSet st.keys sess.id (b2a_hex newKey)
    else if (assocGet st.keys sess.id).isSome then assocDel st.keys sess.id
    else st.keys
  { ret := success [],
    calls := u.calls ++ [.set_password new_password],
    state := { st with current_key := some newKey, keys := keys2 } }

/-- `Controller._update_desc_fps()` (lines 169-174): re-enumerate (the
enumeration result `descs` is the external `get_descriptors()` response),
record the fingerprint sequence, and select the first descriptor as current. -/
def update_desc_fps (st : ControllerState) (descs : List Descriptor) : ControllerState :=
  { st with
    descs := descs,
    desc_fps := descs.map (fun d => d.fingerprint),
    current_desc := descs.head? }

structure RefreshOut where
  ret : Dict
  opens : List String
  state : ControllerState

/-- `Controller.refresh_devices(otp_mode=False)` (lines 176-190): compare the
old fingerprint sequence against the new one; only if they differ, rebuild
`_devices` by opening each descriptor (recorded in `opens`) to read its
metadata.  The returned envelope always carries the final `_devices` list. -/
def refresh_devices (st : ControllerState) (descs : List Descriptor)
    (otp_mode : Bool) : RefreshOut :=
  let old_desc_fps := st.desc_fps
  let st1 := update_desc_fps st descs
  if old_desc_fps = st1.desc_fps then
    { ret := success [("devices", .jlist (st1.devices.map (fun d => JVal.jobj d)))],
      opens := [],
      state := st1 }
  else
    let devices := descs.map device_dict
    { ret := success [("devices", .jlist (devices.map (fun d => JVal.jobj d)))],
      opens := descs.map (fun d => d.fingerprint),
      state := { st1 with devices := devices } }

/-- `Controller._otp_get_code_or_touch(slot, digits, timestamp)`
(lines 252-263).  `devRes` is the outcome of the external non-blocking
`otp_controller.calculate(..., wait_for_touch=False)`: a code string or a
raised exception.  `YkpersError` with errno 11 (operation would block) is
interpreted as touch-required; every other exception is re-raised. -/
def otp_get_code_or_touch (devRes : Except PyExc String) :
    Except PyExc (Option String × Bool) :=
  match devRes with
  | .ok c => .ok (some c, false)
  | .error e =>
      match e with
      | .ykpers n m => if n = 11 then .ok (none, true) else .error (.ykpers n m)
      | e2 => .error e2

/-- True exactly for the would-block condition `_otp_get_code_or_touch`
special-cases. -/
def isWouldBlock : PyExc → Bool
  | .ykpers n _ => n == 11
  | _ => false

/-- The `Credential(str("Slot N").encode('utf-8'), OATH_TYPE.TOTP, touch)`
built in `otp_calculate_all`: ykman parses a plain key without separators as
issuer `None`, name equal to the key, default period 30 (external parse). -/
def slotCredential (slotName : String) (touch : Bool) : Credential :=
  { key := slotName, issuer := none, name := slotName,
    oath_type := .TOTP, period := 30, touch := touch }

/-- `code_to_dict(Code(code, valid_from, valid_to)) if code else None` from
`otp_calculate_all`: Python string truthiness makes both `None` and the empty
string fall to `None`. -/
def slot_code_dict (codeOpt : Option String) (valid_from valid_to : Int) : JVal :=
  match codeOpt with
  | some c =>
      if c = "" then .jnull
      else code_to_dict (some { value := c, valid_from := valid_from, valid_to := valid_to })
  | none => .jnull

/-- One entry of the `otp_calculate_all` result list (lines 271-274 /
277-280). -/
def slot_entry (slotName : String) (codeOpt : Option String) (touch : Bool)
    (valid_from valid_to : Int) : JVal :=
  .jobj [("credential", .jobj (cred_to_dict (slotCredential slotName touch))),
         ("code", slot_code_dict codeOpt valid_from valid_to)]

/-- `Controller.otp_calculate_all(slot1_in_use, slot1_digits, slot2_in_use,
slot2_digits, timestamp)` (lines 265-281).  `valid_from` is the timestamp
floored to the 30-second boundary and `valid_to = valid_from + 30`,
independent of slot and digits.  Each in-use slot is probed non-blockingly
in order (`dev1`, `dev2` are the device outcomes); a probe's re-raised
exception aborts the operation. -/
def otp_calculate_all (slot1_in_use : Bool) (slot1_digits : Nat)
    (slot2_in_use : Bool) (slot2_digits : Nat) (timestamp : Int)
    (dev1 dev2 : Except PyExc String) : Except PyExc Dict :=
  let valid_from := timestamp - timestamp % 30
  let valid_to := valid_from + 30
  match (if slot1_in_use then
          (otp_get_code_or_touch dev1).map
            (fun ct => [slot_entry "Slot 1" ct.1 ct.2 valid_from valid_to])
         else .ok []) with
  | .error e => .error e
  | .ok e1 =>
      match (if slot2_in_use then
              (otp_get_code_or_touch dev2).map
                (fun ct => [slot_entry "Slot 2" ct.1 ct.2 valid_from valid_to])
             else .ok []) with
      | .error e => .error e
      | .ok e2 => .ok (success [("entries", .jlist (e1 ++ e2))])

/-- `Controller.otp_calculate(slot, digits, credential, timestamp)`
(lines 283-291): the blocking variant; the code returned by the device is
wrapped unconditionally in a `Code` with the same 30-second-aligned window,
and the input credential value is echoed back. -/
def otp_calculate (slot : Nat) (digits : Nat) (credential : JVal)
    (timestamp : Int) (devRes : Except PyExc String) : Except PyExc Dict :=
  let valid_from := timestamp - timestamp % 30
  let valid_to := valid_from + 30
  match devRes with
  | .error e => .error e
  | .ok code =>
      .ok (success [("credential", credential),
                    ("code", code_to_dict
                      (some { value := code, valid_from := valid_from, valid_to := valid_to }))])

/-- Extract the (valid_from, valid_to) window from a wire-form code value. -/
def codeWindow (v : JVal) : Option (Int × Int) :=
  match v with
  | .jobj fields =>
      match dictGet fields "valid_from", dictGet fields "valid_to" with
      | some (.jint a), some (.jint b) => some (a, b)
      | _, _ => none
  | _ => none

/-- The window of the `code` field of a returned envelope. -/
def retCodeWindow (r : Except PyExc Dict) : Option (Int × Int) :=
  match r with
  | .ok d =>
      match dictGet d "code" with
      | some v => codeWindow v
      | none => none
  | .error _ => none

/-- The `entries` list of a returned envelope. -/
def entriesOf (r : Except PyExc Dict) : List JVal :=
  match r with
  | .ok d =>
      match dictGet d "entries" with
      | some (.jlist xs) => xs
      | _ => []
  | .error _ => []

/-- The window of one entry's `code` field. -/
def entryCodeWindow (e : JVal) : Option (Int × Int) :=
  match e with
  | .jobj fields =>
      match dictGet fields "code" with
      | some v => codeWindow v
      | none => none
  | _ => none

/-- The `success` flag of a returned envelope. -/
def successFlagOf (r : Except PyExc Dict) : Option Bool :=
  match r with
  | .ok d =>
      match dictGet d "success" with
      | some (.jbool b) => some b
      | _ => none
  | .error _ => none

/-- One entry's credential `touch` flag together with its raw `code` value. -/
def entryTouchCode (e : JVal) : Option (Bool × JVal) :=
  match e with
  | .jobj fields =>
      match dictGet fields "credential", dictGet fields "code" with
      | some (.jobj cd), some cv =>
          match dictGet cd "touch" with
          | some (.jbool b) => some (b, cv)
          | _ => none
      | _, _ => none
  | _ => none

/-- Whether one entry's credential is marked hidden on the wire (issuer is
the reserved `_hidden` string). -/
def entryHidden (e : JVal) : Bool :=
  match e with
  | .jobj fields =>
      match dictGet fields "credential" with
      | some (.jobj cd) =>
          match dictGet cd "issuer" with
          | some (.jstr s) => s == "_hidden"
          | _ => false
      | _ => false
  | _ => false

/-- The `entries` list of a `ccid_calculate_all` result. -/
def calcAllEntries (o : CalcAllOut) : List JVal :=
  match dictGet o.ret "entries" with
  | some (.jlist xs) => xs
  | _ => []

/-- A controller state with no in-memory key and no persisted keys. -/
def sampleState : ControllerState :=
  { descs := [], desc_fps := [], current_desc := none, devices := [],
    current_key := none, keys := [] }

/-- An unlocked store session. -/
def sampleSession : OathSession :=
  { locked := false, id := "dev0", store := [] }

/-- A locked store session with an empty store. -/
def lockedSession : OathSession :=
  { locked := true, id := "dev0", store := [] }

/-- A plain (non-hidden) credential. -/
def sampleCred : Credential :=
  { key := "acct", issuer := none, name := "acct", oath_type := .TOTP,
    period := 30, touch := false }

/-- Provisioning data for one credential. -/
def sampleCredData : CredentialData :=
  { secret := "AAAA", issuer := none, name := "acct", oath_type := .TOTP,
    algorithm := "SHA1", digits := 6, period := 30, counter := 0, touch := false }

/-- C1: the claim says that with a locked store, no cached key and no
persisted key, every protected store-path operation returns the
`failed_to_unlock_key` failure envelope and never performs the protected
device call.  The code violates this: `_unlock` does build that failure
envelope, but every caller invokes `self._unlock(...)` as a bare statement,
discarding it, and performs the protected call anyway — here
`ccid_calculate_all` returns a success envelope and performs
`calculate_all`, and `ccid_delete_credential` performs `delete`; the device
rejection such a call then provokes surfaces as `access_denied` through
`catch_error`, not as `failed_to_unlock_key`. -/
theorem c1_unlock_failure_discarded_and_protected_call_performed :
    (unlock sampleState lockedSession).envelope = some (failure "failed_to_unlock_key")
    ∧ (ccid_calculate_all sampleState lockedSession 0).ret =
        [("entries", .jlist []), ("success", .jbool true)]
    ∧ DevCall.calculate_all 0 ∈ (ccid_calculate_all sampleState lockedSession 0).calls
    ∧ (ccid_delete_credential sampleState lockedSession (cred_to_dict sampleCred)).ret =
        .ok [("success", .jbool true)]
    ∧ DevCall.delete "acct" ∈
        (ccid_delete_credential sampleState lockedSession (cred_to_dict sampleCred)).calls
    ∧ catch_error (.error (.apdu SW.SECURITY_CONDITION_NOT_SATISFIED "locked")) =
        .ok (some (failure "access_denied")) :=
  ⟨rfl, rfl, by decide, rfl, by decide, rfl⟩

/-- C2 counterexample: the claim says an unanticipated exception surfaces as
a failure envelope carrying only a FIXED generic identifier, with no
exception message text crossing the boundary.  In the code,
`unknown_failure` returns `failure(str(exception))`: the error identifier IS
the exception's message text, so it varies with the message — and an
unanticipated `APDUError` (status word not
`SECURITY_CONDITION_NOT_SATISFIED`) is re-raised, producing no envelope at
all. -/
theorem c2_unknown_failure_carries_message_text :
    errorIdOf (catch_error (.error (.other "division by zero"))) = some "division by zero"
    ∧ errorIdOf (catch_error (.error (.other "other secret detail"))) = some "other secret detail"
    ∧ ("division by zero" : String) ≠ "other secret detail"
    ∧ catch_error (.error (.apdu SW.INCORRECT_PARAMETERS "m")) =
        .error (.apdu SW.INCORRECT_PARAMETERS "m") :=
  ⟨rfl, rfl, by decide, rfl⟩

/-- C2 (amended): when an unanticipated exception escapes an operation body
(a `YkpersError` with errno other than 3/4, or a generic exception whose
text is not `Incorrect padding`), the caller receives a failure envelope
whose `error_id` is `str(e)`, the exception's message text; the stack trace
itself is only logged locally.  Unanticipated `APDUError`s are instead
re-raised out of the wrapper. -/
theorem c2_amended_unmapped_exception_maps_to_message_envelope (msg : String)
    (hmsg : msg ≠ "Incorrect padding") (n : Nat) (h3 : n ≠ 3) (h4 : n ≠ 4)
    (sw : Nat) (hsw : sw ≠ SW.SECURITY_CONDITION_NOT_SATISFIED) :
    catch_error (.error (.other msg)) = .ok (some (failure msg))
    ∧ catch_error (.error (.ykpers n msg)) = .ok (some (failure msg))
    ∧ catch_error (.error (.apdu sw msg)) = .error (.apdu sw msg) := by
  refine ⟨?_, ?_, ?_⟩
  · simp [catch_error, unknown_failure, hmsg]
  · simp [catch_error, unknown_failure, h3, h4]
  · simp [catch_error, hsw]

/-- Witness for the amended C2 theorem at a concrete unmapped exception. -/
theorem c2_amended_witness :
    catch_error (.error (.other "boom")) = .ok (some (failure "boom"))
    ∧ catch_error (.error (.ykpers 7 "boom")) = .ok (some (failure "boom"))
    ∧ catch_error (.error (.apdu 0x6a80 "boom")) = .error (.apdu 0x6a80 "boom") :=
  c2_amended_unmapped_exception_maps_to_message_envelope "boom" (by decide) 7
    (by decide) (by decide) 0x6a80 (by decide)

/-- C3: the claim says every public operation returns a success or failure
envelope, and in particular `ccid_validate` produces an envelope on every
device-error path.  The code violates this: when `validate` raises an
`APDUError` whose status word is not `INCORRECT_PARAMETERS` (here
`SECURITY_CONDITION_NOT_SATISFIED`), the `except APDUError` clause swallows
the exception without re-raising, the function falls off the end and returns
Python `None`, and `catch_error` passes that `None` through unchanged — the
caller receives JSON `null`, not an envelope. -/
theorem c3_validate_swallows_unexpected_apdu_error :
    (ccid_validate sampleState sampleSession [1, 2]
        (.apduErr SW.SECURITY_CONDITION_NOT_SATISFIED) false).1 = .ok none
    ∧ catch_error (.ok none) = .ok none
    ∧ SW.SECURITY_CONDITION_NOT_SATISFIED ≠ SW.INCORRECT_PARAMETERS :=
  ⟨rfl, rfl, by decide⟩

/-- C6: when the device rejects the `put` in `ccid_add_credential` with the
no-space status or the generic command-aborted status, the operation returns
the `no_space` failure envelope; any other status word is re-raised rather
than mapped to `no_space`. -/
theorem c6_no_space_mapping (st : ControllerState) (sess : OathSession)
    (cd : CredentialData) (sw : Nat)
    (h1 : sw ≠ SW.NO_SPACE) (h2 : sw ≠ SW.COMMAND_ABORTED) :
    (ccid_add_credential st sess cd (.apduErr SW.NO_SPACE)).ret =
        .ok (some (failure "no_space"))
    ∧ (ccid_add_credential st sess cd (.apduErr SW.COMMAND_ABORTED)).ret =
        .ok (some (failure "no_space"))
    ∧ (ccid_add_credential st sess cd (.apduErr sw)).ret = .error (.apdu sw "") := by
  refine ⟨?_, ?_, ?_⟩
  · simp [ccid_add_credential]
  · simp [ccid_add_credential]
  · simp [ccid_add_credential, h1, h2]

/-- Witness for C6 at concrete inputs (status word 0x9000 is neither
no-space nor command-aborted). -/
theorem c6_witness :
    (ccid_add_credential sampleState sampleSession sampleCredData
        (.apduErr SW.NO_SPACE)).ret = .ok (some (failure "no_space"))
    ∧ (ccid_add_credential sampleState sampleSession sampleCredData
        (.apduErr SW.COMMAND_ABORTED)).ret = .ok (some (failure "no_space"))
    ∧ (ccid_add_credential sampleState sampleSession sampleCredData
        (.apduErr 0x9000)).ret = .error (.apdu 0x9000 "") :=
  c6_no_space_mapping sampleState sampleSession sampleCredData 0x9000
    (by decide) (by decide)

/-- In both branches of `refresh_devices` the returned envelope carries the
final `_devices` list, and the state records the new fingerprint sequence. -/
theorem refresh_devices_ret_and_fps (st : ControllerState) (descs : List Descriptor)
    (m : Bool) :
    (refresh_devices st descs m).ret =
      success [("devices",
        .jlist ((refresh_devices st descs m).state.devices.map (fun d => JVal.jobj d)))]
    ∧ (refresh_devices st descs m).state.desc_fps =
        descs.map (fun d => d.fingerprint) := by
  unfold refresh_devices update_desc_fps
  dsimp only
  split
  · exact ⟨rfl, rfl⟩
  · exact ⟨rfl, rfl⟩

/-- When the old fingerprint sequence equals the new one, `refresh_devices`
opens no device and keeps `_devices` unchanged. -/
theorem refresh_devices_unchanged (st : ControllerState) (descs : List Descriptor)
    (m : Bool) (h : st.desc_fps = descs.map (fun d => d.fingerprint)) :
    (refresh_devices st descs m).opens = []
    ∧ (refresh_devices st descs m).state.devices = st.devices := by
  unfold refresh_devices update_desc_fps
  dsimp only
  rw [if_pos h]
  exact ⟨rfl, rfl⟩

/-- When the fingerprint sequence differs, `refresh_devices` rebuilds
`_devices`, opening each descriptor once. -/
theorem refresh_devices_changed (st : ControllerState) (descs : List Descriptor)
    (m : Bool) (h : st.desc_fps ≠ descs.map (fun d => d.fingerprint)) :
    (refresh_devices st descs m).state.devices = descs.map device_dict
    ∧ (refresh_devices st descs m).opens = descs.map (fun d => d.fingerprint) := by
  unfold refresh_devices update_desc_fps
  dsimp only
  rw [if_neg h]
  exact ⟨rfl, rfl⟩

/-- C10: calling `refresh_devices` twice, where the second enumeration
yields the same fingerprint sequence (order-sensitively) as the first,
opens no device handles on the second call and returns the identical device
list and envelope; and the device list is rebuilt (each descriptor opened
once) exactly when the fingerprint sequence differs. -/
theorem c10_refresh_twice_no_reopen (st st2 : ControllerState)
    (descs descs2 : List Descriptor) (m1 m2 m3 : Bool)
    (h : descs2.map (fun d => d.fingerprint) = descs.map (fun d => d.fingerprint))
    (h2 : st2.desc_fps ≠ descs.map (fun d => d.fingerprint)) :
    (refresh_devices (refresh_devices st descs m1).state descs2 m2).opens = []
    ∧ (refresh_devices (refresh_devices st descs m1).state descs2 m2).ret =
        (refresh_devices st descs m1).ret
    ∧ (refresh_devices (refresh_devices st descs m1).state descs2 m2).state.devices =
        (refresh_devices st descs m1).state.devices
    ∧ (refresh_devices st2 descs m3).state.devices = descs.map device_dict
    ∧ (refresh_devices st2 descs m3).opens = descs.map (fun d => d.fingerprint) := by
  have hfp : (refresh_devices st descs m1).state.desc_fps =
      descs2.map (fun d => d.fingerprint) := by
    rw [(refresh_devices_ret_and_fps st descs m1).2, h]
  have hu := refresh_devices_unchanged (refresh_devices st descs m1).state descs2 m2 hfp
  have hc := refresh_devices_changed st2 descs m3 h2
  refine ⟨hu.1, ?_, hu.2, hc.1, hc.2⟩
  rw [(refresh_devices_ret_and_fps (refresh_devices st descs m1).state descs2 m2).1,
     (refresh_devices_ret_and_fps st descs m1).1, hu.2]

/-- A descriptor for the C10/C4 witnesses. -/
def sampleDesc : Descriptor :=
  { fingerprint := "fpB", device_name := "YubiKey", version := [5, 2, 4],
    serial := some 123 }

/-- Witness for C10 at concrete inputs: `sampleState` has never enumerated
(`desc_fps = []`, which differs from `[sampleDesc]`'s fingerprints). -/
theorem c10_witness :
    (refresh_devices (refresh_devices sampleState [sampleDesc] false).state
        [sampleDesc] false).opens = []
    ∧ (refresh_devices (refresh_devices sampleState [sampleDesc] false).state
        [sampleDesc] false).ret = (refresh_devices sampleState [sampleDesc] false).ret
    ∧ (refresh_devices (refresh_devices sampleState [sampleDesc] false).state
        [sampleDesc] false).state.devices =
        (refresh_devices sampleState [sampleDesc] false).state.devices
    ∧ (refresh_devices sampleState [sampleDesc] true).state.devices =
        [sampleDesc].map device_dict
    ∧ (refresh_devices sampleState [sampleDesc] true).opens =
        [sampleDesc].map (fun d => d.fingerprint) :=
  c10_refresh_twice_no_reopen sampleState sampleState [sampleDesc] [sampleDesc]
    false false true rfl (by decide)

/-- A controller state holding a cached in-memory key for the previously
active device (fingerprint `fpA`). -/
def c4State : ControllerState :=
  { descs := [], desc_fps := ["fpA"], current_desc := none, devices := [],
    current_key := some [7, 7], keys := [] }

/-- C4 counterexample: the claim says that when `refresh_devices` changes the
active device (the fingerprint sequence differs), the cached unlock key is
invalidated so no later operation can present it.  The code never touches
`_current_key` in `refresh_devices`/`_update_desc_fps`: after a refresh that
replaces fingerprint `fpA` by `fpB`, the key cached for the old device is
still in memory, and a later unlock of a locked session presents exactly
that key to the new device. -/
theorem c4_counterexample_key_survives_device_change :
    c4State.desc_fps ≠ (refresh_devices c4State [sampleDesc] false).state.desc_fps
    ∧ (refresh_devices c4State [sampleDesc] false).state.current_key = some [7, 7]
    ∧ (unlock (refresh_devices c4State [sampleDesc] false).state
        { locked := true, id := "newdev", store := [] }).calls =
        [DevCall.validate [7, 7]] :=
  ⟨by decide, rfl, rfl⟩

/-- C4 (amended): `refresh_devices` never modifies the in-memory cached
unlock key, whether or not the fingerprint sequence changed; the key is only
replaced by a later successful `ccid_validate`/`ccid_set_password`. -/
theorem c4_amended_refresh_preserves_current_key (st : ControllerState)
    (descs : List Descriptor) (m : Bool) :
    (refresh_devices st descs m).state.current_key = st.current_key := by
  unfold refresh_devices update_desc_fps
  dsimp only
  split
  · rfl
  · rfl

/-- After `del keys[k]`, `k` is no longer in the mapping. -/
theorem assocGet_assocDel (l : List (String × String)) (k : String) :
    assocGet (assocDel l k) k = none := by
  induction l with
  | nil => rfl
  | cons p t ih =>
      obtain ⟨k1, v1⟩ := p
      by_cases h : k1 = k
      · simpa [assocDel, h] using ih
      · simp [assocDel, assocGet, h, ih]

/-- After `keys[k] = v`, looking up `k` yields `v`. -/
theorem assocGet_assocSet (l : List (String × String)) (k v : String) :
    assocGet (assocSet l k v) k = some v := by
  induction l with
  | nil => simp [assocSet, assocGet]
  | cons p t ih =>
      obtain ⟨k1, v1⟩ := p
      by_cases h : k1 = k
      · simp [assocSet, assocGet, h]
      · simp [assocSet, assocGet, h, ih]

/-- The persisted-keys mapping `ccid_set_password` leaves behind with
`remember=False`. -/
theorem ccid_set_password_keys_no_remember (st : ControllerState)
    (sess : OathSession) (pw : String) (k : List Nat) :
    (ccid_set_password st sess pw k false).state.keys =
      (if (assocGet st.keys sess.id).isSome then assocDel st.keys sess.id
       else st.keys) := rfl

/-- The persisted-keys mapping `ccid_set_password` leaves behind with
`remember=True`. -/
theorem ccid_set_password_keys_remember (st : ControllerState)
    (sess : OathSession) (pw : String) (k : List Nat) :
    (ccid_set_password st sess pw k true).state.keys =
      assocSet st.keys sess.id (b2a_hex k) := rfl

/-- C9: `ccid_set_password` with `remember=False` removes any previously
persisted key for the store's identity; a second `remember=False` call is a
no-op on the persisted mapping; `remember=True` unconditionally persists the
newly derived key, hex-encoded, under the store's identity. -/
theorem c9_set_password_persistence (st : ControllerState) (sess : OathSession)
    (pw1 pw2 pw3 : String) (k1 k2 k3 : List Nat) :
    assocGet (ccid_set_password st sess pw1 k1 false).state.keys sess.id = none
    ∧ (ccid_set_password (ccid_set_password st sess pw1 k1 false).state
        sess pw2 k2 false).state.keys =
        (ccid_set_password st sess pw1 k1 false).state.keys
    ∧ assocGet (ccid_set_password st sess pw3 k3 true).state.keys sess.id =
        some (b2a_hex k3) := by
  have hnone : assocGet (ccid_set_password st sess pw1 k1 false).state.keys sess.id
      = none := by
    rw [ccid_set_password_keys_no_remember]
    by_cases h : (assocGet st.keys sess.id).isSome
    · rw [if_pos h]
      exact assocGet_assocDel st.keys sess.id
    · rw [if_neg h]
      exact Option.not_isSome_iff_eq_none.mp h
  refine ⟨hnone, ?_, ?_⟩
  · rw [ccid_set_password_keys_no_remember, hnone]
    rfl
  · rw [ccid_set_password_keys_remember]
    exact assocGet_assocSet st.keys sess.id (b2a_hex k3)

/-- C5 counterexample: the claim asserts `valid_to - valid_from = 30` for
EVERY integer timestamp.  `code_to_dict` caps `valid_to` at 9999999999
("No Inf in JSON"), so at timestamp 9999999990 the returned slot-path window
is [9999999990, 9999999999] — a width of 9, not 30. -/
theorem c5_counterexample_window_capped :
    retCodeWindow (otp_calculate 1 6 .jnull 9999999990 (.ok "123456")) =
      some (9999999990, 9999999999)
    ∧ (9999999999 : Int) - 9999999990 ≠ 30 :=
  ⟨rfl, by decide⟩

theorem slot_code_dict_of_ne (c : String) (hc : c ≠ "") (vf vt : Int) :
    slot_code_dict (some c) vf vt =
      code_to_dict (some { value := c, valid_from := vf, valid_to := vt }) := by
  simp [slot_code_dict, hc]

/-- C5 (amended): for every slot-based calculation (`otp_calculate` and both
entries of `otp_calculate_all`), at every timestamp ts with
`ts - ts % 30 + 30 ≤ 9999999999`, the returned window is exactly
`[ts - ts % 30, ts - ts % 30 + 30]` — width 30, independent of slot and
digits; beyond that bound `code_to_dict` caps `valid_to` at 9999999999. -/
theorem c5_amended_slot_window (slot digits d1 d2 : Nat) (cred : JVal) (ts : Int)
    (c1 c2 : String) (hc1 : c1 ≠ "") (hc2 : c2 ≠ "")
    (hts : ts - ts % 30 + 30 ≤ 9999999999) :
    retCodeWindow (otp_calculate slot digits cred ts (.ok c1)) =
      some (ts - ts % 30, ts - ts % 30 + 30)
    ∧ (entriesOf (otp_calculate_all true d1 true d2 ts (.ok c1) (.ok c2))).map
        entryCodeWindow =
      [some (ts - ts % 30, ts - ts % 30 + 30),
       some (ts - ts % 30, ts - ts % 30 + 30)] := by
  have hmin : min (ts - ts % 30 + 30) 9999999999 = ts - ts % 30 + 30 :=
    min_eq_left hts
  have hw : ∀ (nm c : String) (tch : Bool), c ≠ "" →
      entryCodeWindow (slot_entry nm (some c) tch (ts - ts % 30) (ts - ts % 30 + 30)) =
        some (ts - ts % 30, min (ts - ts % 30 + 30) 9999999999) := by
    intro nm c tch hc
    show codeWindow (slot_code_dict (some c) (ts - ts % 30) (ts - ts % 30 + 30)) = _
    rw [slot_code_dict_of_ne c hc]
    rfl
  constructor
  · have h1 : retCodeWindow (otp_calculate slot digits cred ts (.ok c1)) =
        some (ts - ts % 30, min (ts - ts % 30 + 30) 9999999999) := rfl
    rw [h1, hmin]
  · have h2 : (entriesOf (otp_calculate_all true d1 true d2 ts (.ok c1) (.ok c2))).map
        entryCodeWindow =
        [entryCodeWindow (slot_entry "Slot 1" (some c1) false (ts - ts % 30) (ts - ts % 30 + 30)),
         entryCodeWindow (slot_entry "Slot 2" (some c2) false (ts - ts % 30) (ts - ts % 30 + 30))] := rfl
    rw [h2, hw "Slot 1" c1 false hc1, hw "Slot 2" c2 false hc2, hmin]

/-- Witness for the amended C5 theorem at timestamp 45. -/
theorem c5_amended_witness :
    retCodeWindow (otp_calculate 1 6 .jnull 45 (.ok "123")) =
      some (45 - 45 % 30, 45 - 45 % 30 + 30)
    ∧ (entriesOf (otp_calculate_all true 6 true 8 45 (.ok "123") (.ok "456"))).map
        entryCodeWindow =
      [some (45 - 45 % 30, 45 - 45 % 30 + 30),
       some (45 - 45 % 30, 45 - 45 % 30 + 30)] :=
  c5_amended_slot_window 1 6 6 8 .jnull 45 "123" "456" (by decide) (by decide)
    (by decide)

/-- C7: the would-block condition (`YkpersError` errno 11) from the
non-blocking slot probe yields `touch=true` with an absent (`null`) code,
inside a success envelope; any other error from the probe is re-raised, not
interpreted as touch-required, and a returned code yields `touch=false`. -/
theorem c7_would_block_is_touch (m : String) (e : PyExc)
    (he : isWouldBlock e = false) (c : String) (d1 d2 : Nat) (ts : Int) :
    otp_get_code_or_touch (.error (.ykpers 11 m)) = .ok (none, true)
    ∧ otp_get_code_or_touch (.error e) = .error e
    ∧ otp_get_code_or_touch (.ok c) = .ok (some c, false)
    ∧ successFlagOf (otp_calculate_all true d1 false d2 ts
        (.error (.ykpers 11 m)) (.error (.ykpers 11 m))) = some true
    ∧ (entriesOf (otp_calculate_all true d1 false d2 ts
        (.error (.ykpers 11 m)) (.error (.ykpers 11 m)))).map entryTouchCode =
      [some (true, .jnull)] := by
  refine ⟨rfl, ?_, rfl, rfl, rfl⟩
  cases e with
  | ykpers n m2 =>
      have hn : n ≠ 11 := by simpa [isWouldBlock] using he
      simp [otp_get_code_or_touch, hn]
  | failedOpeningDevice => rfl
  | apdu sw m2 => rfl
  | other m2 => rfl

/-- Witness for C7: a non-would-block error (an APDU error) is re-raised. -/
theorem c7_witness :
    otp_get_code_or_touch (.error (.ykpers 11 "would block")) = .ok (none, true)
    ∧ otp_get_code_or_touch (.error (.apdu 0x6982 "io")) = .error (.apdu 0x6982 "io")
    ∧ otp_get_code_or_touch (.ok "765432") = .ok (some "765432", false)
    ∧ successFlagOf (otp_calculate_all true 6 false 6 59
        (.error (.ykpers 11 "would block")) (.error (.ykpers 11 "would block"))) =
        some true
    ∧ (entriesOf (otp_calculate_all true 6 false 6 59
        (.error (.ykpers 11 "would block")) (.error (.ykpers 11 "would block")))).map
        entryTouchCode = [some (true, .jnull)] :=
  c7_would_block_is_touch "would block" (.apdu 0x6982 "io") (by decide) "765432" 6 6 59

/-- The wire form of a (credential, code) pair is marked hidden exactly when
the credential is. -/
theorem entryHidden_pair_to_dict (q : Credential) (cd : Option Code) :
    entryHidden (.jobj (pair_to_dict q cd)) = q.is_hidden := by
  obtain ⟨key, issuer, nm, ot, per, tch⟩ := q
  cases issuer with
  | none => rfl
  | some s => rfl

/-- The `entries` list of `ccid_calculate_all` is exactly the wire form of
the store with hidden credentials filtered out. -/
theorem calcAllEntries_eq (st : ControllerState) (sess : OathSession) (ts : Int) :
    calcAllEntries (ccid_calculate_all st sess ts) =
      (sess.store.filter (fun p => !p.1.is_hidden)).map
        (fun p => JVal.jobj (pair_to_dict p.1 p.2)) := rfl

/-- C8: hidden credentials never appear among the entries returned by
`ccid_calculate_all`, while `ccid_calculate` and `ccid_delete_credential`
applied to a hidden credential's identity still operate on that credential:
the envelope echoes it, the device `calculate`/`delete` call is made with
its key, and the delete removes exactly that key from the store — no hidden
check is applied on the individual paths. -/
theorem c8_hidden_filtered_but_addressable (st : ControllerState)
    (sess : OathSession) (ts : Int) (c : Credential) (hc : c.is_hidden = true)
    (devCode : Option Code) :
    (calcAllEntries (ccid_calculate_all st sess ts)).all
        (fun e => !entryHidden e) = true
    ∧ (ccid_calculate st sess (cred_to_dict c) devCode ts).ret =
        .ok (success [("credential", .jobj (cred_to_dict c)),
                      ("code", code_to_dict devCode)])
    ∧ DevCall.calculate c.key ts ∈
        (ccid_calculate st sess (cred_to_dict c) devCode ts).calls
    ∧ DevCall.delete c.key ∈
        (ccid_delete_credential st sess (cred_to_dict c)).calls
    ∧ (ccid_delete_credential st sess (cred_to_dict c)).store =
        sess.store.filter (fun p => !(p.1.key == c.key)) := by
  refine ⟨?_, rfl, ?_, ?_, rfl⟩
  · rw [calcAllEntries_eq, List.all_eq_true]
    intro e he
    rw [List.mem_map] at he
    obtain ⟨p, hp, rfl⟩ := he
    rw [List.mem_filter] at hp
    rw [entryHidden_pair_to_dict]
    simpa using hp.2
  · have h1 : (ccid_calculate st sess (cred_to_dict c) devCode ts).calls =
        (unlock st sess).calls ++ [DevCall.calculate c.key ts] := rfl
    rw [h1]
    simp
  · have h2 : (ccid_delete_credential st sess (cred_to_dict c)).calls =
        (unlock st sess).calls ++ [DevCall.delete c.key] := rfl
    rw [h2]
    simp

/-- A hidden credential (ykman marks a credential hidden when its issuer is
the reserved `_hidden` string). -/
def hiddenCred : Credential :=
  { key := "_hidden:sec", issuer := some "_hidden", name := "sec",
    oath_type := .TOTP, period := 30, touch := false }

/-- A session whose store holds one hidden and one visible credential. -/
def mixedSession : OathSession :=
  { locked := false, id := "dev0",
    store := [(hiddenCred, none),
              (sampleCred, some { value := "111111", valid_from := 0, valid_to := 30 })] }

/-- Witness for C8 at a concrete hidden credential in a concrete store. -/
theorem c8_witness :
    (calcAllEntries (ccid_calculate_all sampleState mixedSession 0)).all
        (fun e => !entryHidden e) = true
    ∧ (ccid_calculate sampleState mixedSession (cred_to_dict hiddenCred)
        (some { value := "222222", valid_from := 0, valid_to := 30 }) 0).ret =
        .ok (success [("credential", .jobj (cred_to_dict hiddenCred)),
                      ("code", code_to_dict
                        (some { value := "222222", valid_from := 0, valid_to := 30 }))])
    ∧ DevCall.calculate hiddenCred.key 0 ∈
        (ccid_calculate sampleState mixedSession (cred_to_dict hiddenCred)
          (some { value := "222222", valid_from := 0, valid_to := 30 }) 0).calls
    ∧ DevCall.delete hiddenCred.key ∈
        (ccid_delete_credential sampleState mixedSession
          (cred_to_dict hiddenCred)).calls
    ∧ (ccid_delete_credential sampleState mixedSession
          (cred_to_dict hiddenCred)).store =
        mixedSession.store.filter (fun p => !(p.1.key == hiddenCred.key)) :=
  c8_hidden_filtered_but_addressable sampleState mixedSession 0 hiddenCred
    (by decide) (some { value := "222222", valid_from := 0, valid_to := 30 })
